import Mathlib

/-!
Shallow embedding of three components of the gestalt UI library:
IconButtonEnd (packages/gestalt/src/TextField/IconButtonEnd.tsx, together
with the Checkbox component appended in the same source bundle) and
DatePicker (packages/gestalt-datepicker/src/DatePicker.tsx).

Event handlers become functions from the local component state to a record
describing the new state, the number of callback invocations and whether the
handler called preventDefault.  Rendering becomes a function from props and
state to a record of the attributes and children actually emitted.  Optional
props are Option values; JS destructuring defaults are applied with getD at
the places the source applies them.
-/

namespace Gestalt

/-- Key code constants imported by IconButtonEnd from the gestalt keyCodes
module.  Modelled from the spec: the keyCodes module itself is not among the
provided sources; ENTER, SPACE and TAB are the standard DOM keyCode values
for the Enter, Space and Tab keys that the module exports. -/
def ENTER : Nat := 13

/-- Standard DOM keyCode for the Space key (see ENTER). -/
def SPACE : Nat := 32

/-- Standard DOM keyCode for the Tab key (see ENTER). -/
def TAB : Nat := 9

/-- The empty string, named for use in concrete instantiations. -/
def emptyText : String := ""

/-- A non-empty string, named for use in concrete instantiations. -/
def sampleText : String := "text"

/-- A keyboard event as observed by the onKeyDown handler of IconButtonEnd:
only the keyCode field of the wrapped DOM event is read. -/
structure KeyEvent where
  keyCode : Nat
  deriving DecidableEq, Repr

namespace IconButtonEnd

/-- Values of the hoverStyle prop of IconButtonEnd. -/
inductive HoverStyle
  | default
  | none
  deriving DecidableEq, Repr

/-- Values of the icon prop of IconButtonEnd. -/
inductive Icon
  | arrowDown
  | cancel
  | eye
  | eyeHide
  | compactChevronDown
  | compactCancel
  deriving DecidableEq, Repr

/-- Values of the role prop of IconButtonEnd. -/
inductive Role
  | switch
  deriving DecidableEq, Repr

/-- Background colours a Pog can receive from IconButtonEnd. -/
inductive BgColor
  | lightGray
  | transparent
  deriving DecidableEq, Repr

/-- Props of IconButtonEnd.  The onClick callback is not stored: handler
results report how many times it was invoked.  tapStyle is forwarded without inspection
and is represented by an abstract reference. -/
structure Props where
  accessibilityChecked : Option Bool := Option.none
  accessibilityHidden : Option Bool := Option.none
  accessibilityLabel : Option String := Option.none
  hoverStyle : Option HoverStyle := Option.none
  icon : Icon
  pogPadding : Option Nat := Option.none
  role : Option Role := Option.none
  tapStyle : Option Nat := Option.none
  tooltipText : Option String := Option.none
  deriving DecidableEq, Repr

/-- Events that the TapArea rendered by IconButtonEnd can deliver to the
handlers installed on it. -/
inductive TapAreaEvent
  | blur
  | focus
  | keyDown (event : KeyEvent)
  | mouseEnter
  | mouseLeave
  | tap
  deriving DecidableEq, Repr

/-- Outcome of delivering one event to the TapArea of IconButtonEnd: the new
value of the focused state, the number of times the onClick callback was
invoked, and whether the handler called preventDefault on the event. -/
structure HandlerResult where
  focused : Bool
  clicks : Nat
  preventedDefault : Bool
  deriving DecidableEq, Repr

/-- Initial value of the focused state: useState(false). -/
def initialFocused : Bool := false

/-- One step of IconButtonEnd event handling, translated from the handler
props installed on the TapArea: onBlur and onMouseLeave clear the focused
state, onFocus and onMouseEnter set it, onTap invokes onClick, and onKeyDown
invokes onClick when the keyCode is ENTER or SPACE and calls preventDefault
when the keyCode differs from TAB. -/
def handleEvent (focused : Bool) : TapAreaEvent → HandlerResult
  | .blur => { focused := false, clicks := 0, preventedDefault := false }
  | .focus => { focused := true, clicks := 0, preventedDefault := false }
  | .keyDown e =>
      { focused := focused
        clicks := if e.keyCode = ENTER ∨ e.keyCode = SPACE then 1 else 0
        preventedDefault := if e.keyCode = TAB then false else true }
  | .mouseEnter => { focused := true, clicks := 0, preventedDefault := false }
  | .mouseLeave => { focused := false, clicks := 0, preventedDefault := false }
  | .tap => { focused := focused, clicks := 1, preventedDefault := false }

/-- Focused state reached by folding the handler over a trace, starting from
an arbitrary state. -/
def focusedFrom (s : Bool) (t : List TapAreaEvent) : Bool :=
  t.foldl (fun a e => (handleEvent a e).focused) s

/-- Focused state of IconButtonEnd after a trace of TapArea events, starting
from the initial state. -/
def focusedAfter (t : List TapAreaEvent) : Bool :=
  focusedFrom initialFocused t

/-- Ghost observer: whether the element holds keyboard focus after a trace,
by browser semantics (set by a focus event, cleared by a blur event, not
affected by pointer or key events).  Used only to state spec claims. -/
def hasFocusFrom (s : Bool) (t : List TapAreaEvent) : Bool :=
  t.foldl
    (fun a e =>
      match e with
      | .focus => true
      | .blur => false
      | _ => a)
    s

/-- Ghost observer hasFocusFrom started from the unfocused state. -/
def hasFocusAfter (t : List TapAreaEvent) : Bool :=
  hasFocusFrom false t

/-- Ghost observer: whether the pointer is inside the element after a trace,
by browser semantics (set by mouseEnter, cleared by mouseLeave). -/
def pointerInsideFrom (s : Bool) (t : List TapAreaEvent) : Bool :=
  t.foldl
    (fun a e =>
      match e with
      | .mouseEnter => true
      | .mouseLeave => false
      | _ => a)
    s

/-- Ghost observer pointerInsideFrom started from the pointer-outside state. -/
def pointerInsideAfter (t : List TapAreaEvent) : Bool :=
  pointerInsideFrom false t

/-- Background colour of the rendered Pog: lightGray when the focused state
holds and hoverStyle is default, transparent otherwise. -/
def bgColor (hoverStyle : HoverStyle) (focused : Bool) : BgColor :=
  if focused = true ∧ hoverStyle = HoverStyle.default then .lightGray
  else .transparent

/-- Attributes of the rendered TapArea and of the Pog inside it. -/
structure TapAreaRendered where
  accessibilityChecked : Option Bool
  accessibilityLabel : Option String
  role : Option Role
  tabIndex : Int
  tapStyle : Option Nat
  pogBgColor : BgColor
  pogIcon : Icon
  pogPadding : Nat
  deriving DecidableEq, Repr

/-- Content of the Box rendered by IconButtonEnd: the TapArea, either wrapped
in a Tooltip or bare. -/
inductive Content
  | tooltip (text : String) (child : TapAreaRendered)
  | bare (child : TapAreaRendered)
  deriving DecidableEq, Repr

/-- The TapArea inside a Content, regardless of the tooltip wrapper. -/
def Content.child : Content → TapAreaRendered
  | .tooltip _ c => c
  | .bare c => c

/-- Whether a Content carries a Tooltip wrapper. -/
def Content.hasTooltip : Content → Bool
  | .tooltip _ _ => true
  | .bare _ => false

/-- MaybeTooltip from IconButtonEnd.tsx: wraps its children in a Tooltip
exactly when tooltipText is truthy, that is a non-empty string; null and
undefined are both falsy and are represented by Option.none. -/
def MaybeTooltip (tooltipText : Option String) (children : TapAreaRendered) :
    Content :=
  match tooltipText with
  | Option.some t => if t = "" then .bare children else .tooltip t children
  | Option.none => .bare children

/-- The subtree rendered by IconButtonEnd: the aria-hidden attribute placed
on the surrounding Box and the (possibly tooltip-wrapped) TapArea. -/
structure Rendered where
  ariaHidden : Option Bool
  content : Content
  deriving DecidableEq, Repr

/-- Render function of IconButtonEnd, translated from the returned JSX:
aria-hidden on the Box is the accessibilityHidden prop; tabIndex on the
TapArea is -1 when accessibilityHidden is truthy and 0 otherwise; the Pog
background colour follows bgColor; hoverStyle defaults to default and
pogPadding to 1 as in the destructuring defaults. -/
def render (p : Props) (focused : Bool) : Rendered :=
  { ariaHidden := p.accessibilityHidden
    content :=
      MaybeTooltip p.tooltipText
        { accessibilityChecked := p.accessibilityChecked
          accessibilityLabel := p.accessibilityLabel
          role := p.role
          tabIndex := if p.accessibilityHidden = Option.some true then -1 else 0
          tapStyle := p.tapStyle
          pogBgColor := bgColor (p.hoverStyle.getD HoverStyle.default) focused
          pogIcon := p.icon
          pogPadding := p.pogPadding.getD 1 } }

/-- A discrete physical user action on the tap target. -/
inductive UserAction
  | pointerClick
  | keyPress (code : Nat)
  deriving DecidableEq, Repr

/-- Modelled from the spec: number of onClick invocations contributed by the
browser-synthesized click that an Enter or Space key press can produce in
addition to the key-down event; the synthesized tap is suppressed when the
key-down handler called preventDefault (spec section 4.1, edge cases). -/
def synthesizedTapClicks (focused : Bool) (code : Nat) : Nat :=
  let r := handleEvent focused (.keyDown { keyCode := code })
  if (code = ENTER ∨ code = SPACE) ∧ r.preventedDefault = false then
    (handleEvent r.focused .tap).clicks
  else 0

/-- Total number of onClick invocations produced by one discrete user action:
a pointer click delivers one tap event; a key press delivers its key-down
event plus a possible browser-synthesized tap (see synthesizedTapClicks). -/
def clicksForAction (focused : Bool) : UserAction → Nat
  | .pointerClick => (handleEvent focused .tap).clicks
  | .keyPress code =>
      (handleEvent focused (.keyDown { keyCode := code })).clicks +
        synthesizedTapClicks focused code

end IconButtonEnd

namespace Checkbox

/-- Values of the labelDisplay prop of Checkbox. -/
inductive LabelDisplay
  | visible
  | hidden
  deriving DecidableEq, Repr

/-- Values of the size prop of Checkbox. -/
inductive Size
  | sm
  | md
  deriving DecidableEq, Repr

/-- Props of Checkbox.  The image child and the onChange and onClick
callbacks are forwarded without being inspected and are represented by
abstract references. -/
structure Props where
  checked : Option Bool := Option.none
  disabled : Option Bool := Option.none
  errorMessage : Option String := Option.none
  helperText : Option String := Option.none
  id : String
  image : Option Nat := Option.none
  indeterminate : Option Bool := Option.none
  label : Option String := Option.none
  labelDisplay : Option LabelDisplay := Option.none
  name : Option String := Option.none
  onChange : Nat
  onClick : Option Nat := Option.none
  size : Option Size := Option.none
  deriving DecidableEq, Repr

/-- The prop set received by an internal checkbox implementation
(InternalCheckbox or VRInternalCheckbox): the caller props after the
destructuring defaults checked = false, disabled = false,
indeterminate = false, labelDisplay = visible, size = md are applied. -/
structure InternalProps where
  checked : Bool
  disabled : Bool
  errorMessage : Option String
  helperText : Option String
  id : String
  image : Option Nat
  indeterminate : Bool
  label : Option String
  labelDisplay : LabelDisplay
  name : Option String
  onChange : Nat
  onClick : Option Nat
  size : Size
  deriving DecidableEq, Repr

/-- What Checkbox renders: the alternate VRInternalCheckbox implementation or
the standard InternalCheckbox implementation, with the props it receives. -/
inductive Render
  | vr (props : InternalProps)
  | standard (props : InternalProps)
  deriving DecidableEq, Repr

/-- The prop set received by whichever internal implementation was chosen. -/
def Render.propsOf : Render → InternalProps
  | .vr q => q
  | .standard q => q

/-- Render function of Checkbox, translated from the component body: the
isInVRExperiment flag (resolved once per render by useInExperiment) selects
VRInternalCheckbox, otherwise InternalCheckbox; each branch of the source
lists the forwarded props separately, so each branch builds its record
separately here as well. -/
def render (p : Props) (isInVRExperiment : Bool) : Render :=
  if isInVRExperiment then
    .vr
      { checked := p.checked.getD false
        disabled := p.disabled.getD false
        errorMessage := p.errorMessage
        helperText := p.helperText
        id := p.id
        image := p.image
        indeterminate := p.indeterminate.getD false
        label := p.label
        labelDisplay := p.labelDisplay.getD LabelDisplay.visible
        name := p.name
        onChange := p.onChange
        onClick := p.onClick
        size := p.size.getD Size.md }
  else
    .standard
      { checked := p.checked.getD false
        disabled := p.disabled.getD false
        errorMessage := p.errorMessage
        helperText := p.helperText
        id := p.id
        image := p.image
        indeterminate := p.indeterminate.getD false
        label := p.label
        labelDisplay := p.labelDisplay.getD LabelDisplay.visible
        name := p.name
        onChange := p.onChange
        onClick := p.onClick
        size := p.size.getD Size.md }

end Checkbox

namespace DatePicker

/-- Values of the idealDirection prop of DatePicker. -/
inductive Direction
  | up
  | right
  | down
  | left
  deriving DecidableEq, Repr

/-- Device type reported by the useDeviceType hook; the component computes
isMobile as equality with mobile. -/
inductive DeviceType
  | desktop
  | mobile
  deriving DecidableEq, Repr

/-- Props of DatePicker.  Date-valued props and the date lists are forwarded
without being inspected and are represented by abstract Nat references;
callbacks are likewise never inspected and are left out: the render records
below state which handlers each internal instance receives. -/
structure Props where
  disableMobileUI : Option Bool := Option.none
  disabled : Option Bool := Option.none
  errorMessage : Option String := Option.none
  excludeDates : List Nat := []
  helperText : Option String := Option.none
  id : String
  idealDirection : Option Direction := Option.none
  includeDates : Option (List Nat) := Option.none
  label : Option String := Option.none
  maxDate : Option Nat := Option.none
  minDate : Option Nat := Option.none
  name : Option String := Option.none
  placeholder : Option String := Option.none
  readOnly : Option Bool := Option.none
  value : Option Nat := Option.none
  deriving DecidableEq, Repr

/-- The prop set received by one InternalDatePicker instance.  inputOnly and
inline are the bare boolean attributes of the source; opensSheetOnFocus
records whether the instance received the onFocus handler that sets
showMobileCalendar, and dismissesOnSelect whether it received the onSelect
handler that starts the dismissal of the sheet. -/
structure InternalProps where
  disabled : Option Bool
  errorMessage : Option String
  helperText : Option String
  id : String
  idealDirection : Direction
  inputOnly : Bool
  inline : Bool
  label : Option String
  name : Option String
  opensSheetOnFocus : Bool
  dismissesOnSelect : Bool
  placeholder : Option String
  readOnly : Option Bool
  value : Option Nat
  deriving DecidableEq, Repr

/-- What DatePicker renders: the plain InternalDatePicker (non-mobile branch),
the input-only InternalDatePicker with no sheet (mobile branch, sheet state
false), or the input-only InternalDatePicker together with the SheetMobile
hosting the inline calendar (mobile branch, sheet state true). -/
inductive Render
  | plain (main : InternalProps)
  | mobileInput (input : InternalProps)
  | mobileSheet (input : InternalProps) (calendar : InternalProps)
  deriving DecidableEq, Repr

/-- Initial value of the showMobileCalendar state: useState(false). -/
def initialShowMobileCalendar : Bool := false

/-- Render function of DatePicker, translated from the component body.  The
mobile branch is taken when the device type is mobile and disableMobileUI
(default false) is false; inside it the sheet and its inline calendar are
rendered exactly when showMobileCalendar holds.  The props omitted from the
inline calendar instance in the source (disabled, helperText, label, name,
placeholder, readOnly) are Option.none there. -/
def render (p : Props) (deviceType : DeviceType) (showMobileCalendar : Bool) :
    Render :=
  if deviceType = DeviceType.mobile ∧ p.disableMobileUI.getD false = false then
    let input : InternalProps :=
      { disabled := p.disabled
        errorMessage := p.errorMessage
        helperText := p.helperText
        id := p.id
        idealDirection := p.idealDirection.getD Direction.down
        inputOnly := true
        inline := false
        label := p.label
        name := p.name
        opensSheetOnFocus := true
        dismissesOnSelect := false
        placeholder := p.placeholder
        readOnly := p.readOnly
        value := p.value }
    if showMobileCalendar then
      .mobileSheet input
        { disabled := Option.none
          errorMessage := p.errorMessage
          helperText := Option.none
          id := p.id
          idealDirection := p.idealDirection.getD Direction.down
          inputOnly := false
          inline := true
          label := Option.none
          name := Option.none
          opensSheetOnFocus := false
          dismissesOnSelect := true
          placeholder := Option.none
          readOnly := Option.none
          value := p.value }
    else .mobileInput input
  else
    .plain
      { disabled := p.disabled
        errorMessage := p.errorMessage
        helperText := p.helperText
        id := p.id
        idealDirection := p.idealDirection.getD Direction.down
        inputOnly := false
        inline := false
        label := p.label
        name := p.name
        opensSheetOnFocus := false
        dismissesOnSelect := false
        placeholder := p.placeholder
        readOnly := p.readOnly
        value := p.value }

/-- The idealDirection value received by each InternalDatePicker instance of
a render, one entry per instance. -/
def Render.internalDirections : Render → List Direction
  | .plain q => [q.idealDirection]
  | .mobileInput q => [q.idealDirection]
  | .mobileSheet q c => [q.idealDirection, c.idealDirection]

/-- Whether a render shows the SheetMobile. -/
def Render.showsSheet : Render → Bool
  | .mobileSheet _ _ => true
  | _ => false

/-- Whether a render is the plain InternalDatePicker of the non-mobile
branch. -/
def Render.isPlain : Render → Bool
  | .plain _ => true
  | _ => false

/-- User events that can reach the handlers DatePicker installs. -/
inductive Event
  | inputFocus
  | selectDate
  | tapDismiss
  deriving DecidableEq, Repr

/-- One transition of the showMobileCalendar state.  In the mobile branch the
input receives onFocus, which sets the state; the inline calendar receives
onSelect and the footer Button receives onClick, both of which call the
onDismissStart of the surrounding SheetMobile.DismissingElement.  Modelled
from the spec (section 4.3, SheetMobile is not among the provided sources):
onDismissStart completes the dismissal and fires the onDismiss of the sheet,
which clears the state.  While the sheet is not shown, its calendar and
dismiss button do not exist, so selectDate and tapDismiss leave the state
unchanged; outside the mobile branch no handler touches the state at all. -/
def step (p : Props) (deviceType : DeviceType) (s : Bool) : Event → Bool :=
  fun e =>
    if deviceType = DeviceType.mobile ∧ p.disableMobileUI.getD false = false
    then
      match e with
      | .inputFocus => true
      | .selectDate => if s then false else s
      | .tapDismiss => if s then false else s
    else s

/-- State after folding a trace of events from the initial state. -/
def stateAfter (p : Props) (deviceType : DeviceType) (t : List Event) : Bool :=
  t.foldl (step p deviceType) initialShowMobileCalendar

end DatePicker

namespace IconButtonEnd

/-- Helper: the TapArea inside a MaybeTooltip is the children argument,
whether or not the Tooltip wrapper is present. -/
theorem MaybeTooltip_child (tt : Option String) (r : TapAreaRendered) :
    (MaybeTooltip tt r).child = r := by
  cases tt with
  | none => rfl
  | some t => by_cases h : t = "" <;> simp [MaybeTooltip, Content.child, h]

/-- Helper: if a focused flag can only hold when the element has focus or the
pointer is inside, the same is true after folding any event trace, because
every event that sets the flag also sets one of the two ghost observers. -/
theorem focused_flag_invariant (t : List TapAreaEvent) (s hf pin : Bool)
    (h : s = true → hf = true ∨ pin = true)
    (hfold : focusedFrom s t = true) :
    hasFocusFrom hf t = true ∨ pointerInsideFrom pin t = true := by
  induction t generalizing s hf pin with
  | nil => exact h hfold
  | cons e rest ih =>
      simp only [focusedFrom, List.foldl] at hfold
      simp only [hasFocusFrom, pointerInsideFrom, List.foldl]
      cases e with
      | blur => exact ih false false pin (by simp) hfold
      | focus => exact ih true true pin (fun _ => Or.inl rfl) hfold
      | keyDown ev => exact ih s hf pin h hfold
      | mouseEnter => exact ih true hf true (fun _ => Or.inr rfl) hfold
      | mouseLeave => exact ih false hf false (by simp) hfold
      | tap => exact ih s hf pin h hfold

/-- C1: on a key-down delivered to the TapArea, Enter or Space invoke onClick
exactly once and prevent the default action; Tab neither invokes onClick nor
prevents the default; any other key prevents the default without invoking
onClick. -/
theorem keydown_activation_contract (f : Bool) (e : KeyEvent) :
    (e.keyCode = ENTER ∨ e.keyCode = SPACE →
      (handleEvent f (.keyDown e)).clicks = 1 ∧
      (handleEvent f (.keyDown e)).preventedDefault = true) ∧
    (e.keyCode = TAB →
      (handleEvent f (.keyDown e)).clicks = 0 ∧
      (handleEvent f (.keyDown e)).preventedDefault = false) ∧
    (e.keyCode ≠ ENTER → e.keyCode ≠ SPACE → e.keyCode ≠ TAB →
      (handleEvent f (.keyDown e)).clicks = 0 ∧
      (handleEvent f (.keyDown e)).preventedDefault = true) := by
  refine ⟨?_, ?_, ?_⟩
  · rintro (h | h) <;> simp [handleEvent, h, ENTER, SPACE, TAB]
  · intro h
    simp [handleEvent, h, ENTER, SPACE, TAB]
  · intro h1 h2 h3
    simp [handleEvent, h1, h2, h3]

/-- C1 witness: the contract evaluated at the Enter, Tab and letter-A key
codes. -/
theorem keydown_activation_contract_witness :
    ((handleEvent false (.keyDown { keyCode := 13 })).clicks = 1 ∧
      (handleEvent false (.keyDown { keyCode := 13 })).preventedDefault = true) ∧
    ((handleEvent false (.keyDown { keyCode := 9 })).clicks = 0 ∧
      (handleEvent false (.keyDown { keyCode := 9 })).preventedDefault = false) ∧
    ((handleEvent false (.keyDown { keyCode := 65 })).clicks = 0 ∧
      (handleEvent false (.keyDown { keyCode := 65 })).preventedDefault = true) :=
  ⟨(keydown_activation_contract false { keyCode := 13 }).1 (Or.inl rfl),
    (keydown_activation_contract false { keyCode := 9 }).2.1 rfl,
    (keydown_activation_contract false { keyCode := 65 }).2.2
      (by decide) (by decide) (by decide)⟩

/-- C4 counterexample: after the trace focus, mouseEnter, mouseLeave the
element still holds keyboard focus and the pointer is outside, yet with
hoverStyle default the rendered background is transparent; the claimed
biconditional between a lightGray background and (pointer inside or focus
held) is therefore false on this input. -/
theorem bg_focus_claim_counterexample :
    hasFocusAfter
        [TapAreaEvent.focus, TapAreaEvent.mouseEnter, TapAreaEvent.mouseLeave]
      = true ∧
    pointerInsideAfter
        [TapAreaEvent.focus, TapAreaEvent.mouseEnter, TapAreaEvent.mouseLeave]
      = false ∧
    ¬ (bgColor HoverStyle.default
          (focusedAfter
            [TapAreaEvent.focus, TapAreaEvent.mouseEnter,
              TapAreaEvent.mouseLeave]) = BgColor.lightGray ↔
        (pointerInsideAfter
            [TapAreaEvent.focus, TapAreaEvent.mouseEnter,
              TapAreaEvent.mouseLeave] = true ∨
          hasFocusAfter
            [TapAreaEvent.focus, TapAreaEvent.mouseEnter,
              TapAreaEvent.mouseLeave] = true)) := by
  decide

/-- C4 (amended): the background is lightGray exactly when hoverStyle is
default and the single focused flag is set (the flag is set by focus and
mouseEnter and cleared by blur and mouseLeave); whenever the flag is set, the
pointer is inside or the element holds focus, so a non-transparent background
can only occur under the condition the claim states, but not conversely. -/
theorem bg_lightGray_iff_focused_flag (hs : HoverStyle)
    (t : List TapAreaEvent) :
    (bgColor hs (focusedAfter t) = BgColor.lightGray ↔
      (hs = HoverStyle.default ∧ focusedAfter t = true)) ∧
    (focusedAfter t = true →
      pointerInsideAfter t = true ∨ hasFocusAfter t = true) := by
  constructor
  · cases hs <;> cases hfa : focusedAfter t <;> simp [bgColor, hfa]
  · intro hfold
    exact (focused_flag_invariant t false false false (by simp) hfold).symm

/-- C4 witness: the amended statement evaluated after a single focus event
with hoverStyle default. -/
theorem bg_lightGray_iff_focused_flag_witness :
    (bgColor HoverStyle.default (focusedAfter [TapAreaEvent.focus]) =
        BgColor.lightGray ↔
      (HoverStyle.default = HoverStyle.default ∧
        focusedAfter [TapAreaEvent.focus] = true)) ∧
    (pointerInsideAfter [TapAreaEvent.focus] = true ∨
      hasFocusAfter [TapAreaEvent.focus] = true) :=
  ⟨(bg_lightGray_iff_focused_flag HoverStyle.default [TapAreaEvent.focus]).1,
    (bg_lightGray_iff_focused_flag HoverStyle.default [TapAreaEvent.focus]).2
      (by decide)⟩

/-- C5: one discrete user action invokes onClick exactly once: a pointer
click through the onTap path only, and an Enter or Space key press through
the key-down path only, since the prevented default suppresses the
browser-synthesized tap: the two paths never both fire. -/
theorem single_activation_per_user_action (f : Bool) (code : Nat)
    (h : code = ENTER ∨ code = SPACE) :
    clicksForAction f UserAction.pointerClick = 1 ∧
    clicksForAction f (UserAction.keyPress code) = 1 ∧
    synthesizedTapClicks f code = 0 := by
  have hsyn : synthesizedTapClicks f code = 0 := by
    rcases h with h | h <;>
      simp [synthesizedTapClicks, handleEvent, h, ENTER, SPACE, TAB]
  refine ⟨rfl, ?_, hsyn⟩
  simp only [clicksForAction]
  rw [hsyn]
  rcases h with h | h <;> simp [handleEvent, h, ENTER, SPACE]

/-- C5 witness: the invariant evaluated at an Enter key press. -/
theorem single_activation_per_user_action_witness :
    clicksForAction false UserAction.pointerClick = 1 ∧
    clicksForAction false (UserAction.keyPress 13) = 1 ∧
    synthesizedTapClicks false 13 = 0 :=
  single_activation_per_user_action false 13 (Or.inl rfl)

/-- C6: with accessibilityHidden true, the rendered Box carries aria-hidden
and the TapArea carries tabIndex -1, whatever the tooltip and the focused
state are. -/
theorem hidden_unreachable_and_aria_hidden (p : Props) (f : Bool)
    (h : p.accessibilityHidden = Option.some true) :
    (render p f).ariaHidden = Option.some true ∧
    (render p f).content.child.tabIndex = -1 := by
  refine ⟨h, ?_⟩
  simp [render, MaybeTooltip_child, h]

/-- C6 witness: the accessibility contract evaluated on a hidden cancel
button. -/
theorem hidden_unreachable_and_aria_hidden_witness :
    (render { icon := Icon.cancel, accessibilityHidden := Option.some true }
        false).ariaHidden = Option.some true ∧
    (render { icon := Icon.cancel, accessibilityHidden := Option.some true }
        false).content.child.tabIndex = -1 :=
  hidden_unreachable_and_aria_hidden
    { icon := Icon.cancel, accessibilityHidden := Option.some true } false rfl

/-- C8: focus, blur, mouseEnter and mouseLeave never invoke onClick and never
prevent a default action; they only update the local focused state. -/
theorem visual_events_do_not_activate (f : Bool) :
    ((handleEvent f .focus).clicks = 0 ∧
      (handleEvent f .focus).preventedDefault = false ∧
      (handleEvent f .focus).focused = true) ∧
    ((handleEvent f .blur).clicks = 0 ∧
      (handleEvent f .blur).preventedDefault = false ∧
      (handleEvent f .blur).focused = false) ∧
    ((handleEvent f .mouseEnter).clicks = 0 ∧
      (handleEvent f .mouseEnter).preventedDefault = false ∧
      (handleEvent f .mouseEnter).focused = true) ∧
    ((handleEvent f .mouseLeave).clicks = 0 ∧
      (handleEvent f .mouseLeave).preventedDefault = false ∧
      (handleEvent f .mouseLeave).focused = false) :=
  ⟨⟨rfl, rfl, rfl⟩, ⟨rfl, rfl, rfl⟩, ⟨rfl, rfl, rfl⟩, ⟨rfl, rfl, rfl⟩⟩

/-- C10: the TapArea is wrapped in a Tooltip exactly when tooltipText is a
non-empty string; for an omitted text or the empty string it is rendered
bare, and the TapArea inside is the same in every case. -/
theorem tooltip_wrapper_iff_truthy (p : Props) (f : Bool) (t : String)
    (h : t ≠ "") :
    (render { p with tooltipText := Option.some t } f).content.hasTooltip
      = true ∧
    (render { p with tooltipText := Option.none } f).content.hasTooltip
      = false ∧
    (render { p with tooltipText := Option.some emptyText } f).content.hasTooltip
      = false ∧
    (render { p with tooltipText := Option.some t } f).content.child =
      (render { p with tooltipText := Option.none } f).content.child ∧
    (render { p with tooltipText := Option.some emptyText } f).content.child =
      (render { p with tooltipText := Option.none } f).content.child := by
  refine ⟨?_, rfl, ?_, ?_, ?_⟩
  · simp [render, MaybeTooltip, Content.hasTooltip, h]
  · simp [render, MaybeTooltip, Content.hasTooltip, emptyText]
  · simp [render, MaybeTooltip_child]
  · simp [render, MaybeTooltip_child]

/-- C10 witness: the tooltip wrapping evaluated on an eye button with a
non-empty tooltip text. -/
theorem tooltip_wrapper_iff_truthy_witness :
    (render { icon := Icon.eye, tooltipText := Option.some sampleText }
        false).content.hasTooltip = true ∧
    (render { icon := Icon.eye, tooltipText := Option.none }
        false).content.hasTooltip = false ∧
    (render { icon := Icon.eye, tooltipText := Option.some emptyText }
        false).content.hasTooltip = false ∧
    (render { icon := Icon.eye, tooltipText := Option.some sampleText }
        false).content.child =
      (render { icon := Icon.eye, tooltipText := Option.none }
        false).content.child ∧
    (render { icon := Icon.eye, tooltipText := Option.some emptyText }
        false).content.child =
      (render { icon := Icon.eye, tooltipText := Option.none }
        false).content.child :=
  tooltip_wrapper_iff_truthy { icon := Icon.eye } false sampleText (by decide)

end IconButtonEnd

namespace Checkbox

/-- C3: with the experiment flag false, Checkbox renders InternalCheckbox
with checked, disabled and indeterminate equal to the supplied values; with
the flag true, VRInternalCheckbox receives exactly the prop set the standard
branch builds. -/
theorem variant_prop_forwarding (p : Props) (c d ind : Bool)
    (hc : p.checked = Option.some c) (hd : p.disabled = Option.some d)
    (hi : p.indeterminate = Option.some ind) :
    (∃ q, render p false = Render.standard q ∧
      q.checked = c ∧ q.disabled = d ∧ q.indeterminate = ind) ∧
    (∃ q, render p true = Render.vr q ∧ q = (render p false).propsOf) := by
  refine ⟨⟨_, rfl, ?_, ?_, ?_⟩, ⟨_, rfl, rfl⟩⟩ <;> simp [hc, hd, hi]

/-- C3 witness: variant selection evaluated on a checked, enabled,
indeterminate checkbox. -/
theorem variant_prop_forwarding_witness :
    (∃ q, render
        { checked := Option.some true, disabled := Option.some false,
          indeterminate := Option.some true, id := emptyText, onChange := 0 }
        false = Render.standard q ∧
      q.checked = true ∧ q.disabled = false ∧ q.indeterminate = true) ∧
    (∃ q, render
        { checked := Option.some true, disabled := Option.some false,
          indeterminate := Option.some true, id := emptyText, onChange := 0 }
        true = Render.vr q ∧
      q = (render
        { checked := Option.some true, disabled := Option.some false,
          indeterminate := Option.some true, id := emptyText, onChange := 0 }
        false).propsOf) :=
  variant_prop_forwarding
    { checked := Option.some true, disabled := Option.some false,
      indeterminate := Option.some true, id := emptyText, onChange := 0 }
    true false true rfl rfl rfl

end Checkbox

namespace DatePicker

/-- C2: on a mobile device with the mobile UI enabled, the sheet state starts
false, input focus sets it, selecting a date or tapping the dismiss button
clears it, and the SheetMobile is rendered exactly while the state holds. -/
theorem mobile_sheet_lifecycle (p : Props) (dt : DeviceType)
    (hdt : dt = DeviceType.mobile)
    (hui : p.disableMobileUI.getD false = false) :
    initialShowMobileCalendar = false ∧
    step p dt false Event.inputFocus = true ∧
    (render p dt true).showsSheet = true ∧
    step p dt true Event.selectDate = false ∧
    step p dt true Event.tapDismiss = false ∧
    (render p dt false).showsSheet = false := by
  subst hdt
  refine ⟨rfl, ?_, ?_, ?_, ?_, ?_⟩ <;>
    simp [step, render, Render.showsSheet, hui]

/-- C2 witness: the sheet lifecycle evaluated on a default-props DatePicker
on a mobile device. -/
theorem mobile_sheet_lifecycle_witness :
    initialShowMobileCalendar = false ∧
    step { id := emptyText } DeviceType.mobile false Event.inputFocus = true ∧
    (render { id := emptyText } DeviceType.mobile true).showsSheet = true ∧
    step { id := emptyText } DeviceType.mobile true Event.selectDate = false ∧
    step { id := emptyText } DeviceType.mobile true Event.tapDismiss = false ∧
    (render { id := emptyText } DeviceType.mobile false).showsSheet = false :=
  mobile_sheet_lifecycle { id := emptyText } DeviceType.mobile rfl rfl

/-- C7: on a non-mobile device, or with disableMobileUI true, no event trace
ever makes DatePicker render the sheet: the render is always the plain
InternalDatePicker. -/
theorem nonmobile_never_renders_sheet (p : Props) (dt : DeviceType)
    (h : dt = DeviceType.desktop ∨ p.disableMobileUI = Option.some true)
    (t : List Event) :
    (render p dt (stateAfter p dt t)).showsSheet = false ∧
    (render p dt (stateAfter p dt t)).isPlain = true := by
  have hcond :
      ¬ (dt = DeviceType.mobile ∧ p.disableMobileUI.getD false = false) := by
    rcases h with h | h <;> simp [h]
  constructor <;> simp [render, hcond, Render.showsSheet, Render.isPlain]

/-- C7 witness: the desktop branch evaluated after an input focus event. -/
theorem nonmobile_never_renders_sheet_witness :
    (render { id := emptyText } DeviceType.desktop
        (stateAfter { id := emptyText } DeviceType.desktop
          [Event.inputFocus])).showsSheet = false ∧
    (render { id := emptyText } DeviceType.desktop
        (stateAfter { id := emptyText } DeviceType.desktop
          [Event.inputFocus])).isPlain = true :=
  nonmobile_never_renders_sheet { id := emptyText } DeviceType.desktop
    (Or.inl rfl) [Event.inputFocus]

/-- C9: with idealDirection omitted, every InternalDatePicker instance of
every branch receives the default direction down; with disableMobileUI
omitted, the render is the same as with disableMobileUI false. -/
theorem omitted_props_defaults (p : Props) (dt : DeviceType) (s : Bool)
    (hdir : p.idealDirection = Option.none)
    (hui : p.disableMobileUI = Option.none) :
    (∀ d ∈ (render p dt s).internalDirections, d = Direction.down) ∧
    render p dt s =
      render { p with disableMobileUI := Option.some false } dt s := by
  constructor
  · intro d hd
    cases dt <;> cases s <;>
      simp [render, Render.internalDirections, hdir, hui] at hd <;>
      simp [hd]
  · cases dt <;> cases s <;> simp [render, hui]

/-- C9 witness: the defaults evaluated on a default-props DatePicker in the
open mobile-sheet branch. -/
theorem omitted_props_defaults_witness :
    render { id := emptyText } DeviceType.mobile true =
      render { ({ id := emptyText } : Props) with
          disableMobileUI := Option.some false }
        DeviceType.mobile true :=
  (omitted_props_defaults { id := emptyText } DeviceType.mobile true
    rfl rfl).2

end DatePicker

end Gestalt
